import Mathlib

/-!
Verification development for the benchmark harness in `.circleci/bench.py`.

The Python source is shallowly embedded as executable Lean definitions:
  * JSON values and a strict parser mirroring `json.loads`,
  * a strict UTF-8 byte decoder mirroring `bytes.decode('utf-8')`,
  * `measure_performance` as a pure function over an explicit model of one
    HTTP exchange (status, reason, stream lines with arrival timestamps,
    iterator faults), returning the result dictionary as a record of
    optional fields,
  * `wait_for_exo` over an explicit list of poll attempts,
  * the post-spawn part of `main` over an explicit world of stage outcomes,
    with its `try/finally` teardown.

External-call behaviour (clock readings, stream contents, OS signal and
wait outcomes) is supplied as explicit input data; the control flow and the
data transformations come from the source.  Python exceptions are modelled
explicitly: a raised exception is a value threaded to the matching handler.
Unmodelled corners (see comments at the definitions): Python's recursion
limit inside `json.loads`, and floating point rounding (timestamps and
arithmetic use exact rationals).
-/

/-- JSON values as produced by Python `json.loads`.  `nan`, `inf`, `ninf`
model the non-standard literals `NaN`, `Infinity`, `-Infinity` which Python
accepts by default.  Strings (values and object keys) are sequences of
Unicode code points in `[0, 0x10FFFF]`, exactly CPython's string model:
unlike Lean `Char` this admits the unpaired surrogates that `json.loads`
produces for lone `\uD800`-`\uDFFF` escapes.  Objects keep the key/value
pairs in parse order; lookups take the last binding, matching Python dict
construction where a later duplicate key overwrites an earlier one. -/
inductive Json where
  | null : Json
  | bool (b : Bool) : Json
  | num (q : ℚ) : Json
  | nan : Json
  | inf : Json
  | ninf : Json
  | str (s : List Nat) : Json
  | arr (xs : List Json) : Json
  | obj (kvs : List (List Nat × Json)) : Json

/-- The code points of a Lean string literal, for writing concrete Python
strings of the model. -/
def pyCodes (s : String) : List Nat := s.toList.map Char.toNat

/-- Python `dict.get` on the dict built from an association list: the last
binding for a key wins. -/
def jsonGet (kvs : List (List Nat × Json)) (k : List Nat) : Option Json :=
  (kvs.reverse.find? (fun p => p.1 == k)).map (fun p => p.2)

/-- Python truthiness (`if content:`) of a JSON-decoded value. -/
def pyTruthy : Json → Bool
  | .null => false
  | .bool b => b
  | .num q => decide (q ≠ 0)
  | .nan => true
  | .inf => true
  | .ninf => true
  | .str s => !s.isEmpty
  | .arr xs => !xs.isEmpty
  | .obj kvs => !kvs.isEmpty

/-- Truthiness of `dict.get`'s result, where an absent key gives `None`. -/
def pyTruthyOpt : Option Json → Bool
  | none => false
  | some j => pyTruthy j

/-- The characters Python `str.strip()` removes (`Py_UNICODE_ISSPACE`,
the predicate behind `str.isspace`): the ASCII whitespace `\t \n \v \f \r`
and space, the separators `\x1c`-`\x1f`, NEL `U+0085`, no-break space
`U+00A0`, Ogham space `U+1680`, the `U+2000`-`U+200A` spaces, line and
paragraph separators `U+2028`/`U+2029`, `U+202F`, `U+205F` and the
ideographic space `U+3000`. -/
def pyIsSpace (c : Char) : Bool :=
  decide ((0x09 ≤ c.toNat ∧ c.toNat ≤ 0x0D) ∨ (0x1C ≤ c.toNat ∧ c.toNat ≤ 0x1F) ∨
    c.toNat = 0x20 ∨ c.toNat = 0x85 ∨ c.toNat = 0xA0 ∨ c.toNat = 0x1680 ∨
    (0x2000 ≤ c.toNat ∧ c.toNat ≤ 0x200A) ∨ c.toNat = 0x2028 ∨ c.toNat = 0x2029 ∨
    c.toNat = 0x202F ∨ c.toNat = 0x205F ∨ c.toNat = 0x3000)

/-- Python `str.strip()` on a list of characters. -/
def pyStrip (cs : List Char) : List Char :=
  ((cs.dropWhile pyIsSpace).reverse.dropWhile pyIsSpace).reverse

/-- UTF-8 continuation byte test. -/
def isCont (b : Nat) : Bool := decide (0x80 ≤ b ∧ b ≤ 0xBF)

/-- Strict UTF-8 decoding of a byte sequence, mirroring Python
`bytes.decode('utf-8')` (default `errors='strict'`): rejects invalid lead
bytes, truncated sequences, overlong encodings, surrogates and code points
above U+10FFFF.  Returns `none` exactly when CPython raises
`UnicodeDecodeError`. -/
def utf8Decode : List Nat → Option (List Char)
  | [] => some []
  | b :: rest =>
    if b ≤ 0x7F then
      (utf8Decode rest).map (fun cs => Char.ofNat b :: cs)
    else if b ≤ 0xC1 then none
    else if b ≤ 0xDF then
      match rest with
      | c1 :: r =>
        if isCont c1 then
          (utf8Decode r).map
            (fun cs => Char.ofNat ((b - 0xC0) * 0x40 + (c1 - 0x80)) :: cs)
        else none
      | [] => none
    else if b ≤ 0xEF then
      match rest with
      | c1 :: c2 :: r =>
        if ((b = 0xE0 ∧ 0xA0 ≤ c1 ∧ c1 ≤ 0xBF) ∨
            (b = 0xED ∧ 0x80 ≤ c1 ∧ c1 ≤ 0x9F) ∨
            (b ≠ 0xE0 ∧ b ≠ 0xED ∧ isCont c1)) ∧ isCont c2 then
          (utf8Decode r).map
            (fun cs => Char.ofNat
              ((b - 0xE0) * 0x1000 + (c1 - 0x80) * 0x40 + (c2 - 0x80)) :: cs)
        else none
      | _ => none
    else if b ≤ 0xF4 then
      match rest with
      | c1 :: c2 :: c3 :: r =>
        if ((b = 0xF0 ∧ 0x90 ≤ c1 ∧ c1 ≤ 0xBF) ∨
            (b = 0xF4 ∧ 0x80 ≤ c1 ∧ c1 ≤ 0x8F) ∨
            (b ≠ 0xF0 ∧ b ≠ 0xF4 ∧ isCont c1)) ∧ isCont c2 ∧ isCont c3 then
          (utf8Decode r).map
            (fun cs => Char.ofNat
              ((b - 0xF0) * 0x40000 + (c1 - 0x80) * 0x1000 +
               (c2 - 0x80) * 0x40 + (c3 - 0x80)) :: cs)
        else none
      | _ => none
    else none

/-- ASCII bytes of a string; helper for building concrete stream lines. -/
def asciiBytes (s : String) : List Nat := s.toList.map Char.toNat

/-- Whitespace accepted between JSON tokens by Python's `json` scanner. -/
def jsonWs (c : Char) : Bool := c = ' ' || c = '\t' || c = '\n' || c = '\r'

/-- Skip inter-token whitespace. -/
def skipWs (cs : List Char) : List Char := cs.dropWhile jsonWs

/-- Value of one hexadecimal digit of a `\uXXXX` escape, if the character
is one. -/
def hexDigit (c : Char) : Option Nat :=
  if c.isDigit then some (c.toNat - 48)
  else if 'a' ≤ c ∧ c ≤ 'f' then some (c.toNat - 87)
  else if 'A' ≤ c ∧ c ≤ 'F' then some (c.toNat - 70)
  else none

/-- Parse exactly four hex digits (the payload of a `\uXXXX` escape). -/
def parseHex4 : List Char → Option (Nat × List Char)
  | a :: b :: c :: d :: r =>
    match hexDigit a, hexDigit b, hexDigit c, hexDigit d with
    | some x, some y, some z, some w => some (x * 0x1000 + y * 0x100 + z * 0x10 + w, r)
    | _, _, _, _ => none
  | _ => none

/-- Single-character JSON string escapes. -/
def escChar (e : Char) : Option Char :=
  match e with
  | 'n' => some '\n'
  | 't' => some '\t'
  | 'r' => some '\r'
  | 'b' => some '\x08'
  | 'f' => some '\x0c'
  | '/' => some '/'
  | '\\' => some '\\'
  | '"' => some '"'
  | _ => none

/-- Body of a JSON string, after the opening quote, mirroring Python's
strict `scanstring`: raw control characters below U+0020 are rejected and
escapes are decoded.  A `\uXXXX` high surrogate immediately followed by a
`\uYYYY` low surrogate combines into one code point; in every other case
the escaped surrogate is kept as an unpaired code point in the result,
exactly as CPython does (a high surrogate followed by `\u` and invalid
hex raises, because CPython decodes those four characters before deciding
whether to pair).  The output is the Python string as a code point
sequence; the fuel dominates the number of characters consumed. -/
def parseStrBody : Nat → List Char → Option (List Nat × List Char)
  | 0, _ => none
  | _ + 1, [] => none
  | fuel + 1, c :: rest =>
    if c = '"' then some ([], rest)
    else if c = '\\' then
      match rest with
      | [] => none
      | 'u' :: r =>
        match parseHex4 r with
        | none => none
        | some (n, r2) =>
          if 0xD800 ≤ n ∧ n ≤ 0xDBFF then
            match r2 with
            | '\\' :: 'u' :: r3 =>
              match parseHex4 r3 with
              | none => none
              | some (m, r4) =>
                if 0xDC00 ≤ m ∧ m ≤ 0xDFFF then
                  (parseStrBody fuel r4).map (fun p =>
                    ((0x10000 + (n - 0xD800) * 0x400 + (m - 0xDC00)) :: p.1, p.2))
                else (parseStrBody fuel r2).map (fun p => (n :: p.1, p.2))
            | _ => (parseStrBody fuel r2).map (fun p => (n :: p.1, p.2))
          else (parseStrBody fuel r2).map (fun p => (n :: p.1, p.2))
      | e :: r =>
        match escChar e with
        | some ec => (parseStrBody fuel r).map (fun p => (ec.toNat :: p.1, p.2))
        | none => none
    else if c.toNat < 0x20 then none
    else (parseStrBody fuel rest).map (fun p => (c.toNat :: p.1, p.2))

/-- Digits prefix of a character list and whatever follows it. -/
def takeDigits (cs : List Char) : List Char × List Char :=
  (cs.takeWhile Char.isDigit, cs.dropWhile Char.isDigit)

/-- Numeric value of a digit string. -/
def digitsToNat (ds : List Char) : Nat :=
  ds.foldl (fun a c => a * 10 + (c.toNat - 48)) 0

/-- Parse a JSON number following Python's `NUMBER_RE`:
`-?(0|[1-9]\d*)(\.\d+)?([eE][+-]?\d+)?`.  The fractional part and exponent
are consumed only when complete (so `5.` parses as `5` with `.` left over,
exactly as the regex behaves).  The value is exact (ℚ); Python's conversion
to IEEE double is not modelled (no claim depends on rounding). -/
def parseNum (cs : List Char) : Option (Json × List Char) :=
  let signed : Bool × List Char :=
    if cs.head? = some '-' then (true, cs.tail) else (false, cs)
  match signed.2 with
  | [] => none
  | c :: _ =>
    if ¬ c.isDigit then none
    else
      let ipart : List Char × List Char :=
        if c = '0' then ([c], signed.2.tail) else takeDigits signed.2
      let frac : List Char × List Char :=
        match ipart.2 with
        | '.' :: rr =>
          let d := takeDigits rr
          if d.1 = [] then ([], ipart.2) else (d.1, d.2)
        | _ => ([], ipart.2)
      let expo : Option (Bool × List Char) × List Char :=
        match frac.2 with
        | 'e' :: rr =>
          let se : Bool × List Char :=
            match rr with
            | '-' :: r2 => (true, r2)
            | '+' :: r2 => (false, r2)
            | _ => (false, rr)
          let d := takeDigits se.2
          if d.1 = [] then (none, frac.2) else (some (se.1, d.1), d.2)
        | 'E' :: rr =>
          let se : Bool × List Char :=
            match rr with
            | '-' :: r2 => (true, r2)
            | '+' :: r2 => (false, r2)
            | _ => (false, rr)
          let d := takeDigits se.2
          if d.1 = [] then (none, frac.2) else (some (se.1, d.1), d.2)
        | _ => (none, frac.2)
      let mant : ℚ :=
        (digitsToNat ipart.1 : ℚ) +
          (digitsToNat frac.1 : ℚ) / ((10 : ℚ) ^ frac.1.length)
      let scaled : ℚ :=
        match expo.1 with
        | none => mant
        | some (eneg, eds) =>
          if eneg then mant / ((10 : ℚ) ^ digitsToNat eds)
          else mant * ((10 : ℚ) ^ digitsToNat eds)
      some (.num (if signed.1 then -scaled else scaled), expo.2)

/-- Opening brace character, written numerically. -/
def obraceChar : Char := Char.ofNat 123

/-- Closing brace character, written numerically. -/
def cbraceChar : Char := Char.ofNat 125

/-- Items of a JSON array after the first value's start (empty arrays are
handled by the caller).  `pv` parses one value; the fuel bounds the number
of items, which is dominated by the input length. -/
def parseArrItems (pv : List Char → Option (Json × List Char)) :
    Nat → List Char → Option (List Json × List Char)
  | 0, _ => none
  | fuel + 1, cs =>
    match pv cs with
    | none => none
    | some (v, r) =>
      match skipWs r with
      | c :: r2 =>
        if c = ',' then (parseArrItems pv fuel r2).map (fun p => (v :: p.1, p.2))
        else if c = ']' then some ([v], r2)
        else none
      | [] => none

/-- Members of a JSON object positioned at the start of a key (whitespace
already skipped; empty objects are handled by the caller). -/
def parseObjItems (pv : List Char → Option (Json × List Char)) :
    Nat → List Char → Option (List (List Nat × Json) × List Char)
  | 0, _ => none
  | fuel + 1, cs =>
    match cs with
    | '"' :: r =>
      match parseStrBody (r.length + 1) r with
      | none => none
      | some (k, r2) =>
        match skipWs r2 with
        | ':' :: r3 =>
          match pv r3 with
          | none => none
          | some (v, r4) =>
            match skipWs r4 with
            | c :: r5 =>
              if c = ',' then
                (parseObjItems pv fuel (skipWs r5)).map
                  (fun p => ((k, v) :: p.1, p.2))
              else if c = cbraceChar then some ([(k, v)], r5)
              else none
            | [] => none
        | _ => none
    | _ => none

/-- One JSON value with leading whitespace, mirroring Python's scanner:
literals (`null`, `true`, `false` and the non-standard `NaN`, `Infinity`,
`-Infinity`), strings, arrays, objects, numbers.  The fuel bounds nesting
depth and is dominated by the input length; Python's recursion limit
(`RecursionError` on extreme nesting) is not modelled. -/
def parseVal : Nat → List Char → Option (Json × List Char)
  | 0, _ => none
  | fuel + 1, cs =>
    let cs1 := skipWs cs
    if "null".toList.isPrefixOf cs1 then some (.null, cs1.drop 4)
    else if "true".toList.isPrefixOf cs1 then some (.bool true, cs1.drop 4)
    else if "false".toList.isPrefixOf cs1 then some (.bool false, cs1.drop 5)
    else if "NaN".toList.isPrefixOf cs1 then some (.nan, cs1.drop 3)
    else if "Infinity".toList.isPrefixOf cs1 then some (.inf, cs1.drop 8)
    else if "-Infinity".toList.isPrefixOf cs1 then some (.ninf, cs1.drop 9)
    else
      match cs1 with
      | [] => none
      | c :: rest =>
        if c = '"' then
          (parseStrBody (rest.length + 1) rest).map
            (fun p => (.str p.1, p.2))
        else if c = '[' then
          match skipWs rest with
          | ']' :: r => some (.arr [], r)
          | r => (parseArrItems (parseVal fuel) fuel r).map (fun p => (.arr p.1, p.2))
        else if c = obraceChar then
          match skipWs rest with
          | d :: r =>
            if d = cbraceChar then some (.obj [], r)
            else
              (parseObjItems (parseVal fuel) fuel (d :: r)).map
                (fun p => (.obj p.1, p.2))
          | [] => none
        else parseNum cs1

/-- Python `json.loads`: one JSON document, with surrounding whitespace
allowed and nothing else; returns `none` exactly when CPython raises
`json.JSONDecodeError` (see the surrogate and recursion caveats above). -/
def json_loads (s : String) : Option Json :=
  let cs := s.toList
  match parseVal (cs.length + 1) cs with
  | none => none
  | some (v, r) => if skipWs r = [] then some v else none

/-- Python exceptions that can reach the handlers at the bottom of
`measure_performance`: `aiohttp.ClientError` and everything else
(`UnicodeDecodeError`, `AttributeError`, `IndexError`, `TypeError`,
`KeyError`, `ZeroDivisionError`, ...).  `json.JSONDecodeError` never
reaches them — it is caught inside the stream loop — so it needs no
constructor; JSON decode failure is the `none` result of `json_loads`. -/
inductive PyExc where
  | clientError (msg : String) : PyExc
  | other (msg : String) : PyExc
deriving DecidableEq

/-- Message stored by the two `except` clauses of `measure_performance`
(`f"Client error: {e}"` / `f"Unexpected error: {e}"`): the failure category
tag followed by the exception text. -/
def excMsg : PyExc → String
  | .clientError m => "Client error: " ++ m
  | .other m => "Unexpected error: " ++ m

/-- Lines 51-52 of the source:
`choice = chunk.get('choices', [{}])[0]` and
`content = choice.get('delta', {}).get('content')`.
Each step either produces a value or raises the Python exception that the
corresponding operation raises on that shape (`.get` on a non-dict raises
`AttributeError`, subscripting an empty list raises `IndexError`,
subscripting a non-sequence raises `TypeError`, subscripting a dict with
an absent key raises `KeyError`; a one-character string subscript yields a
string whose `.get` then raises `AttributeError`).  The exception texts
stand for the Python messages; only the raised/not-raised distinction and
the handler that catches them matter downstream. -/
def extractContent : Json → Except PyExc (Option Json)
  | .obj kvs =>
    let choices := (jsonGet kvs (pyCodes "choices")).getD (.arr [.obj []])
    match choices with
    | .arr [] => .error (.other "list index out of range")
    | .arr (choice :: _) =>
      match choice with
      | .obj ckvs =>
        let delta := (jsonGet ckvs (pyCodes "delta")).getD (.obj [])
        match delta with
        | .obj dkvs => .ok (jsonGet dkvs (pyCodes "content"))
        | _ => .error (.other "delta value has no attribute get")
      | _ => .error (.other "choice element has no attribute get")
    | .str s =>
      if s = [] then .error (.other "string index out of range")
      else .error (.other "str has no attribute get")
    | .obj _ => .error (.other "KeyError: 0")
    | _ => .error (.other "choices value is not subscriptable")
  | _ => .error (.other "chunk has no attribute get")

/-- What processing one raw stream line does to the loop of lines 40-62,
independently of the accumulated state:
  * `skip`: the iteration ends in `continue` (blank / no `data: ` prefix /
    JSON decode failure / falsy content),
  * `token`: a truthy content delta was extracted,
  * `done`: the `[DONE]` sentinel, `break`,
  * `abort`: an exception propagates out of the loop
    (`UnicodeDecodeError` from `.decode('utf-8')`, or a shape error from
    the extraction steps). -/
inductive LineClass where
  | skip : LineClass
  | token : LineClass
  | done : LineClass
  | abort (e : PyExc) : LineClass
deriving DecidableEq

/-- Classification of one raw byte line, following lines 41-59 of the
source: decode UTF-8, strip, test the `data: ` prefix, drop it, test the
`[DONE]` sentinel, JSON-decode the remainder, extract the content delta,
test its truthiness. -/
def classifyLine (bytes : List Nat) : LineClass :=
  match utf8Decode bytes with
  | none => .abort (.other "invalid utf-8 byte")
  | some cs =>
    let line := pyStrip cs
    if line.isEmpty ∨ ¬ ("data: ".toList.isPrefixOf line) then .skip
    else
      let lineContent := line.drop 6
      if lineContent = "[DONE]".toList then .done
      else
        match json_loads (String.mk lineContent) with
        | none => .skip
        | some chunk =>
          match extractContent chunk with
          | .error e => .abort e
          | .ok content => if pyTruthyOpt content then .token else .skip

/-- One raw line of the response body stream together with the value
`time.time()` returns while that line is being processed (used only when
the line carries the first content token, line 56 of the source). -/
structure StreamLine where
  bytes : List Nat
  time : ℚ
deriving DecidableEq

/-- Mutable state of the stream loop: the `first_token_time` local, the
`results["time_to_first_token"]` entry written together with it, and the
`total_tokens` counter.  Nothing else is written inside the loop. -/
structure LoopSt where
  first_token_time : Option ℚ
  ttft : Option ℚ
  tokens : Nat
deriving DecidableEq

/-- How the stream loop ended: the line list was exhausted, `break` on the
`[DONE]` sentinel, or an exception aborted it. -/
inductive LoopExit where
  | exhausted : LoopExit
  | doneBreak : LoopExit
  | aborted (e : PyExc) : LoopExit
deriving DecidableEq

/-- The `async for raw_line in response.content` loop (lines 40-62).
`start` is the `start_time` recorded before the request was issued. -/
def runLines (start : ℚ) : List StreamLine → LoopSt → LoopSt × LoopExit
  | [], st => (st, .exhausted)
  | l :: rest, st =>
    match classifyLine l.bytes with
    | .skip => runLines start rest st
    | .done => (st, .doneBreak)
    | .abort e => (st, .aborted e)
    | .token =>
      let st1 :=
        if st.first_token_time.isNone then
          { st with first_token_time := some l.time, ttft := some (l.time - start) }
        else st
      runLines start rest { st1 with tokens := st1.tokens + 1 }

/-- The `results` dictionary of `measure_performance`, with one optional
field per key the source ever writes. -/
structure Record where
  time_to_first_token : Option ℚ := none
  tokens_per_second : Option ℚ := none
  total_tokens : Option Nat := none
  total_time : Option ℚ := none
  error : Option String := none
deriving DecidableEq

/-- Response body stream: the raw lines the iterator yields, and an
optional exception the iterator raises when asked for the line after the
last one (transport faults surface mid-iteration this way; `none` means
the stream closes normally).  If the loop breaks at `[DONE]` the
remaining lines and the fault are never reached. -/
structure StreamBody where
  lines : List StreamLine
  iterExc : Option PyExc

/-- Outcome of `session.post(...)`: either the request itself raises, or a
response arrives with a status code, a reason phrase and a body stream. -/
inductive HttpResponse where
  | raised (e : PyExc) : HttpResponse
  | resp (status : Nat) (reason : String) (body : StreamBody) : HttpResponse

/-- All the external behaviour one `measure_performance` call observes:
the response to its POST, the value of `time.time()` at line 31
(`start_time`) and at line 64 (`end_time`).  Per-line clock readings live
in the lines themselves. -/
structure MeasureInput where
  response : HttpResponse
  startTime : ℚ
  endTime : ℚ

/-- Lines 64-74 of the source: compute `total_time` and either install the
throughput triple or the `"No tokens were generated"` error.  Returns the
record, the final token count and the exception, if any, raised here
(`total_tokens / total_time` raises `ZeroDivisionError` when
`total_time == 0`; the dict literal is evaluated before `results.update`,
so nothing is installed in that case). -/
def finishStream (inp : MeasureInput) (st : LoopSt) (rec : Record) :
    Record × Nat × Option PyExc :=
  let total_time := inp.endTime - inp.startTime
  if 0 < st.tokens then
    if total_time = 0 then
      (rec, st.tokens, some (.other "division by zero"))
    else
      ({ rec with
          tokens_per_second := some ((st.tokens : ℚ) / total_time),
          total_tokens := some st.tokens,
          total_time := some total_time }, st.tokens, none)
  else
    ({ rec with error := some "No tokens were generated" }, st.tokens, none)

/-- The body of the `try` of `measure_performance` (lines 30-74): returns
the `results` record as built so far, the token count, and the exception
that escapes to the handlers at lines 76-79, if any. -/
def tryBody (inp : MeasureInput) : Record × Nat × Option PyExc :=
  match inp.response with
  | .raised e => ({}, 0, some e)
  | .resp status reason body =>
    if status ≠ 200 then
      ({ error := some ("HTTP " ++ toString status ++ ": " ++ reason) }, 0, none)
    else
      let run := runLines inp.startTime body.lines ⟨none, none, 0⟩
      let rec0 : Record := { time_to_first_token := run.1.ttft }
      match run.2 with
      | .aborted e => (rec0, run.1.tokens, some e)
      | .doneBreak => finishStream inp run.1 rec0
      | .exhausted =>
        match body.iterExc with
        | some e => (rec0, run.1.tokens, some e)
        | none => finishStream inp run.1 rec0

/-- `measure_performance` (lines 10-81): run the `try` body; a caught
exception is recorded by the matching handler as the tagged `error`
entry.  The function is total: no exception escapes to the caller. -/
def measure_performance (inp : MeasureInput) : Record :=
  let r := tryBody inp
  match r.2.2 with
  | none => r.1
  | some e => { r.1 with error := some (excMsg e) }

/-- Final value of the `total_tokens` counter of one run (still observable
when a mid-stream failure discards the throughput fields). -/
def runTokens (inp : MeasureInput) : Nat := (tryBody inp).2.1

/-- The first line of a stream that yields a content token, scanning past
skipped lines only (a `[DONE]` or an abort ends the scan). -/
def firstTokenLine : List StreamLine → Option StreamLine
  | [] => none
  | l :: rest =>
    match classifyLine l.bytes with
    | .token => some l
    | .skip => firstTokenLine rest
    | .done => none
    | .abort _ => none

/-- Lines 22-27 of the source: the fixed request payload for a prompt. -/
def request_payload (prompt : String) : Json :=
  .obj [(pyCodes "model", .str (pyCodes "llama-3.2-3b")),
        (pyCodes "messages",
          .arr [.obj [(pyCodes "role", .str (pyCodes "user")),
                      (pyCodes "content", .str (pyCodes prompt))]]),
        (pyCodes "temperature", .num 0),
        (pyCodes "stream", .bool true)]

/-- The base endpoint used by the readiness check (line 99 of the source):
the chat-completions suffix removed by `str.replace` (which replaces every
occurrence). -/
def baseEndpoint (api_endpoint : String) : String :=
  api_endpoint.replace "/v1/chat/completions" ""

/-- One iteration of the polling loop of `wait_for_exo`: the value
`time.time()` returned at the `while` condition, and the outcome of the
GET issued in that iteration — `some status` for a response, `none` when
the request raised (swallowed by the bare `except`).  The `await
asyncio.sleep(2)` between attempts shows up only as the gap between
successive clock readings. -/
structure Attempt where
  clock : ℚ
  outcome : Option Nat
deriving DecidableEq

/-- `wait_for_exo` (lines 84-105) over the list of its poll iterations:
while the clock reading is within the timeout, a response with status
exactly 200 returns `True` immediately; any other status and any raised
request error fall through to the next attempt; once the condition fails
the loop exits with `False`.  (The model's list is finite; exhausting it
stands for the clock passing the timeout.) -/
def wait_for_exo (start_time timeout : ℚ) : List Attempt → Bool
  | [] => false
  | a :: rest =>
    if a.clock - start_time < timeout then
      match a.outcome with
      | some status => if status = 200 then true else wait_for_exo start_time timeout rest
      | none => wait_for_exo start_time timeout rest
    else false

/-- Terminal disposition of the spawned server process group. -/
inductive Disposition where
  | graceful : Disposition
  | forced : Disposition
deriving DecidableEq

/-- Outcomes of the OS calls in the teardown block (lines 180-187):
`sigExc` is the exception raised by `os.getpgid`/`os.killpg`, if any, and
`waitExc` the exception raised by `exo_process.wait(timeout=30)`, if any
(`subprocess.TimeoutExpired` when the group ignores SIGTERM for the whole
grace window).  On POSIX a child that already exited voluntarily and has
not been waited on keeps its process-group id, signalling it succeeds with
the signal discarded, and `wait` returns its status immediately — i.e.
such a process presents `sigExc = none` and `waitExc = none` here.
`Popen.kill` on an exited child does nothing and raises nothing. -/
structure StopWorld where
  sigExc : Option String
  waitExc : Option String
deriving DecidableEq

/-- Result of the teardown block: the disposition reached and whether the
forced-kill fallback (`exo_process.kill()`) ran. -/
structure StopResult where
  disposition : Disposition
  killCalled : Bool
deriving DecidableEq

/-- The teardown block of `main` (lines 180-187): group SIGTERM and a
30-second bounded wait inside a `try`; any fault there falls to the
`except` clause, which force-kills the leaf process.  Total by
construction: the `except Exception` clause swallows every fault, so
teardown never raises. -/
def stopServer (w : StopWorld) : StopResult :=
  match w.sigExc with
  | some _ => ⟨.forced, true⟩
  | none =>
    match w.waitExc with
    | some _ => ⟨.forced, true⟩
    | none => ⟨.graceful, false⟩

/-- Outcome of the artifact-persistence stage (lines 162-173): `ok`;
`ioError` for an `IOError` from the `open`/`json.dump` block, caught by
the inner handler at line 168 and only printed; `otherExc` for any other
exception in the post-probe stages (e.g. `os.makedirs` failing), which
escapes to the handler at line 175. -/
inductive PersistOutcome where
  | ok : PersistOutcome
  | ioError (msg : String) : PersistOutcome
  | otherExc (msg : String) : PersistOutcome

/-- External behaviour observed by `main` after the server subprocess has
been spawned: the readiness poll's start clock and attempts, the HTTP
worlds of the two probes, the persistence outcome, and the teardown call
outcomes. -/
structure MainWorld where
  pollStart : ℚ
  attempts : List Attempt
  basicInput : MeasureInput
  essayInput : MeasureInput
  persist : PersistOutcome
  td : StopWorld

/-- How the `try` body of `main` ended: ran to completion, or an exception
was caught (and printed) by the handler at line 175 — the readiness
`RuntimeError` or a persistence-stage fault. -/
inductive RunOutcome where
  | completed : RunOutcome
  | caught (msg : String) : RunOutcome

/-- Observable result of the post-spawn part of `main`: the body outcome,
the probe records it produced (none when the readiness abort skipped
them), whether the `finally` teardown ran, and what it did. -/
structure MainResult where
  outcome : RunOutcome
  basic : Option Record
  essay : Option Record
  teardownRan : Bool
  stopRes : StopResult

/-- The `try/except/finally` of `main` after `subprocess.Popen` (lines
133-187): wait for readiness (raise `RuntimeError` if it fails), run the
two probes sequentially, persist (an `IOError` is caught and printed
inside the `try`; any other fault escapes to the `except`), and in every
case run the teardown block.  The shallow embedding of `try/finally`
computes the body's outcome — normal or exceptional — and then the
`finally` block. -/
def mainAfterSpawn (w : MainWorld) : MainResult :=
  let body : RunOutcome × Option Record × Option Record :=
    if wait_for_exo w.pollStart 60 w.attempts then
      let results_basic := measure_performance w.basicInput
      let results_essay := measure_performance w.essayInput
      match w.persist with
      | .otherExc m => (.caught m, some results_basic, some results_essay)
      | _ => (.completed, some results_basic, some results_essay)
    else
      (.caught "Exo did not initialize within the expected time.", none, none)
  { outcome := body.1
    basic := body.2.1
    essay := body.2.2
    teardownRan := true
    stopRes := stopServer w.td }

/-- The successful alternative of a performance record: all three
throughput fields are populated. -/
def throughputPopulated (r : Record) : Prop :=
  r.tokens_per_second.isSome = true ∧ r.total_tokens.isSome = true ∧
    r.total_time.isSome = true

/-- A content-bearing stream line carrying `text`, observed at clock
reading `t`. -/
def contentLine (text : String) (t : ℚ) : StreamLine :=
  ⟨asciiBytes ("data: \x7b\"choices\": [\x7b\"delta\": \x7b\"content\": \"" ++ text ++ "\"\x7d\x7d]\x7d"), t⟩

/-- The `[DONE]` sentinel line, observed at clock reading `t`. -/
def doneLine (t : ℚ) : StreamLine := ⟨asciiBytes "data: [DONE]", t⟩

/-- Concrete run for the claim C10 witness: one content chunk, then the
sentinel, between timestamps 1 and 9. -/
def w10 : MeasureInput := ⟨.resp 200 "OK" ⟨[contentLine "Hi" 3, doneLine 4], none⟩, 1, 9⟩

/-- Concrete run for the claim C9 witness: two content chunks and then a
mid-stream transport failure. -/
def w9 : MeasureInput :=
  ⟨.resp 200 "OK" ⟨[contentLine "He" 3, contentLine "y" 5],
      some (.clientError "Connection reset by peer")⟩, 1, 9⟩

/-- Concrete run for claim C7: the transport fails after the first content
chunk has arrived. -/
def c7inp : MeasureInput :=
  ⟨.resp 200 "OK" ⟨[contentLine "Hi" 3], some (.clientError "Connection reset")⟩, 1, 9⟩

/-- The empty-content chunk line used by the claim C8 witness. -/
def emptyContentStr : String :=
  "data: \x7b\"choices\": [\x7b\"delta\": \x7b\"content\": \"\"\x7d\x7d]\x7d"

/-- Its parsed chunk value. -/
def emptyContentChunk : Json :=
  .obj [(pyCodes "choices",
    .arr [.obj [(pyCodes "delta", .obj [(pyCodes "content", .str [])])]])]

/-- A line classified as a skip leaves the loop state untouched and hands
control to the remaining lines. -/
theorem runLines_cons_skip (start : ℚ) (l : StreamLine) (rest : List StreamLine)
    (st : LoopSt) (h : classifyLine l.bytes = .skip) :
    runLines start (l :: rest) st = runLines start rest st := by
  rw [runLines, h]

/-- A UTF-8 line whose stripped text lacks the `data: ` prefix (in
particular any empty line) classifies as a skip. -/
theorem classifyLine_no_data_skip (bytes : List Nat) (cs : List Char)
    (hdec : utf8Decode bytes = some cs)
    (hpre : ¬ ("data: ".toList.isPrefixOf (pyStrip cs) = true)) :
    classifyLine bytes = .skip := by
  simp only [classifyLine, hdec]
  rw [if_pos (Or.inr hpre)]

/-- A `data: `-prefixed line whose remainder is neither the sentinel nor
decodable JSON classifies as a skip (the `json.JSONDecodeError` handler's
`continue`). -/
theorem classifyLine_bad_json_skip (bytes : List Nat) (cs : List Char)
    (hdec : utf8Decode bytes = some cs)
    (hpre : "data: ".toList.isPrefixOf (pyStrip cs) = true)
    (hdone : (pyStrip cs).drop 6 ≠ "[DONE]".toList)
    (hjson : json_loads (String.mk ((pyStrip cs).drop 6)) = none) :
    classifyLine bytes = .skip := by
  have hne : (pyStrip cs).isEmpty = false := by
    cases hl : pyStrip cs with
    | nil => rw [hl] at hpre; simp [List.isPrefixOf] at hpre
    | cons a as => simp [List.isEmpty]
  simp only [classifyLine, hdec]
  rw [if_neg (fun hcon => hcon.elim
    (fun h1 => by rw [hne] at h1; exact Bool.false_ne_true h1)
    (fun h2 => h2 hpre))]
  simp only [if_neg hdone, hjson]

/-- A parsed chunk whose extraction succeeds with a Python-falsy content
value classifies as a skip. -/
theorem classifyLine_falsy_content_skip (bytes : List Nat) (cs : List Char)
    (chunk : Json) (c : Option Json)
    (hdec : utf8Decode bytes = some cs)
    (hpre : "data: ".toList.isPrefixOf (pyStrip cs) = true)
    (hdone : (pyStrip cs).drop 6 ≠ "[DONE]".toList)
    (hjson : json_loads (String.mk ((pyStrip cs).drop 6)) = some chunk)
    (hex : extractContent chunk = .ok c)
    (hfalsy : pyTruthyOpt c = false) :
    classifyLine bytes = .skip := by
  have hne : (pyStrip cs).isEmpty = false := by
    cases hl : pyStrip cs with
    | nil => rw [hl] at hpre; simp [List.isPrefixOf] at hpre
    | cons a as => simp [List.isEmpty]
  simp only [classifyLine, hdec]
  rw [if_neg (fun hcon => hcon.elim
    (fun h1 => by rw [hne] at h1; exact Bool.false_ne_true h1)
    (fun h2 => h2 hpre))]
  simp only [if_neg hdone, hjson, hex, hfalsy]
  simp

/-- Once the first token has been seen, later iterations of the stream
loop never touch the recorded `time_to_first_token` again. -/
theorem runLines_ttft_frozen (start : ℚ) (ls : List StreamLine) (st : LoopSt) (t : ℚ)
    (h : st.first_token_time = some t) :
    (runLines start ls st).1.ttft = st.ttft := by
  induction ls generalizing st with
  | nil => simp [runLines]
  | cons l rest ih =>
    cases hc : classifyLine l.bytes with
    | skip => simpa [runLines, hc] using ih st h
    | done => simp [runLines, hc]
    | abort e => simp [runLines, hc]
    | token =>
      simp only [runLines, hc, h, Option.isNone_some, Bool.false_eq_true, if_false]
      exact ih _ (by simp [h])

/-- A stream loop started with a fresh state ends with a positive token
count only if some line classifies as a token, and then the recorded
`time_to_first_token` is computed from the first such line. -/
theorem runLines_first_token (start : ℚ) (ls : List StreamLine) (st : LoopSt)
    (h0 : st.first_token_time = none) (h1 : st.tokens = 0)
    (hpos : 0 < (runLines start ls st).1.tokens) :
    ∃ l, firstTokenLine ls = some l ∧
      (runLines start ls st).1.ttft = some (l.time - start) := by
  induction ls generalizing st with
  | nil => simp [runLines, h1] at hpos
  | cons l rest ih =>
    cases hc : classifyLine l.bytes with
    | skip =>
      rw [runLines, hc] at hpos ⊢
      simpa [firstTokenLine, hc] using ih st h0 h1 hpos
    | done => simp [runLines, hc, h1] at hpos
    | abort e => simp [runLines, hc, h1] at hpos
    | token =>
      refine ⟨l, by simp [firstTokenLine, hc], ?_⟩
      rw [runLines, hc]
      simp only [h0, Option.isNone_none, if_pos rfl]
      exact runLines_ttft_frozen start rest _ l.time rfl

/-- The recorded `time_to_first_token` of a 200-response run equals the
final `ttft` of the stream loop on every exit path. -/
theorem measure_ttft_eq (inp : MeasureInput) (reason : String) (body : StreamBody)
    (hresp : inp.response = .resp 200 reason body) :
    (measure_performance inp).time_to_first_token =
      (runLines inp.startTime body.lines ⟨none, none, 0⟩).1.ttft := by
  rcases inp with ⟨resp, st, et⟩
  cases hresp
  simp only [measure_performance, tryBody, if_neg (by simp : ¬ (200 ≠ 200))]
  rcases hr : runLines st body.lines ⟨none, none, 0⟩ with ⟨stF, exit⟩
  cases exit with
  | aborted e => simp
  | doneBreak =>
    by_cases ht : 0 < stF.tokens
    · by_cases hz : et - st = 0
      · simp [finishStream, ht, hz]
      · simp [finishStream, ht, hz]
    · simp [finishStream, ht]
  | exhausted =>
    cases hie : body.iterExc with
    | some e => simp
    | none =>
      by_cases ht : 0 < stF.tokens
      · by_cases hz : et - st = 0
        · simp [finishStream, ht, hz]
        · simp [finishStream, ht, hz]
      · simp [finishStream, ht]

/-- Claim C1: for every endpoint and prompt, the record returned by the
performance probe populates exactly one of the two alternatives — either
the throughput triple (`tokens_per_second`, `total_tokens`, `total_time`)
with no error field, or an error string with no throughput fields — never
both and never neither. -/
theorem claim1_record_exactly_one_alternative (inp : MeasureInput) :
    ((throughputPopulated (measure_performance inp) ∧
        (measure_performance inp).error = none) ∧
      ¬ ((measure_performance inp).error.isSome = true ∧
          ¬ throughputPopulated (measure_performance inp))) ∨
    (((measure_performance inp).error.isSome = true ∧
        (measure_performance inp).tokens_per_second = none ∧
        (measure_performance inp).total_tokens = none ∧
        (measure_performance inp).total_time = none) ∧
      ¬ (throughputPopulated (measure_performance inp) ∧
          (measure_performance inp).error = none)) := by
  rcases inp with ⟨resp, st, et⟩
  cases resp with
  | raised e =>
    right
    simp [measure_performance, tryBody, throughputPopulated]
  | resp status reason body =>
    by_cases hs : status = 200
    · subst hs
      simp only [measure_performance, tryBody, if_neg (by simp : ¬ (200 ≠ 200))]
      rcases hr : runLines st body.lines ⟨none, none, 0⟩ with ⟨stF, exit⟩
      cases exit with
      | aborted e =>
        right
        simp [throughputPopulated]
      | doneBreak =>
        by_cases ht : 0 < stF.tokens
        · by_cases hz : et - st = 0
          · right
            simp [finishStream, ht, hz, throughputPopulated]
          · left
            simp [finishStream, ht, hz, throughputPopulated]
        · right
          simp [finishStream, ht, throughputPopulated]
      | exhausted =>
        cases hie : body.iterExc with
        | some e =>
          right
          simp [throughputPopulated]
        | none =>
          by_cases ht : 0 < stF.tokens
          · by_cases hz : et - st = 0
            · right
              simp [finishStream, ht, hz, throughputPopulated]
            · left
              simp [finishStream, ht, hz, throughputPopulated]
          · right
            simp [finishStream, ht, throughputPopulated]
    · right
      simp [measure_performance, tryBody, hs, throughputPopulated]

/-- Claim C2 as stated is false at a concrete line: the remainder `null`
does not parse as a structured record (it is valid JSON but not an
object), and instead of a silently-skipped chunk the iteration raises —
the loop aborts, an error surfaces, and the subsequent content line is
never processed. -/
theorem claim2_counterexample :
    json_loads "null" = some .null ∧
    runLines 1 [⟨asciiBytes "data: null", 2⟩, contentLine "Hi" 3] ⟨none, none, 0⟩ =
      (⟨none, none, 0⟩, .aborted (.other "chunk has no attribute get")) :=
  ⟨rfl, by decide⟩

/-- Claim C2 amended: a `data: ` line whose remainder fails JSON decoding
is silently skipped — the loop state (token counter, timing) is unchanged
and every subsequent line is still processed.  (A remainder that decodes
to a non-object JSON value is not skipped; see the counterexample.) -/
theorem claim2_malformed_json_skipped (start : ℚ) (l : StreamLine)
    (rest : List StreamLine) (st : LoopSt) (cs : List Char)
    (hdec : utf8Decode l.bytes = some cs)
    (hpre : "data: ".toList.isPrefixOf (pyStrip cs) = true)
    (hdone : (pyStrip cs).drop 6 ≠ "[DONE]".toList)
    (hjson : json_loads (String.mk ((pyStrip cs).drop 6)) = none) :
    runLines start (l :: rest) st = runLines start rest st :=
  runLines_cons_skip start l rest st
    (classifyLine_bad_json_skip l.bytes cs hdec hpre hdone hjson)

/-- Witness for claim C2 at the undecodable remainder `nope`. -/
theorem claim2_witness :
    utf8Decode (asciiBytes "data: nope") = some "data: nope".toList ∧
    "data: ".toList.isPrefixOf (pyStrip "data: nope".toList) = true ∧
    (pyStrip "data: nope".toList).drop 6 ≠ "[DONE]".toList ∧
    json_loads (String.mk ((pyStrip "data: nope".toList).drop 6)) = none ∧
    runLines 1 [⟨asciiBytes "data: nope", 2⟩] ⟨none, none, 0⟩ =
      runLines 1 [] ⟨none, none, 0⟩ :=
  ⟨by decide, by decide, by decide, rfl,
    claim2_malformed_json_skipped 1 ⟨asciiBytes "data: nope", 2⟩ [] ⟨none, none, 0⟩
      "data: nope".toList (by decide) (by decide) (by decide) rfl⟩

/-- Claim C3: on every path of the orchestrator after the spawn — normal
completion, probes returning error records, readiness timeout, or a
persistence-stage exception — the teardown runs and the handle reaches
exactly one of the two terminal dispositions. -/
theorem claim3_teardown_unconditional (w : MainWorld) :
    (mainAfterSpawn w).teardownRan = true ∧
    (mainAfterSpawn w).stopRes = stopServer w.td ∧
    (((mainAfterSpawn w).stopRes.disposition = .graceful ∧
        (mainAfterSpawn w).stopRes.disposition ≠ .forced) ∨
      ((mainAfterSpawn w).stopRes.disposition = .forced ∧
        (mainAfterSpawn w).stopRes.disposition ≠ .graceful)) := by
  refine ⟨rfl, rfl, ?_⟩
  cases hd : (mainAfterSpawn w).stopRes.disposition with
  | graceful => exact Or.inl ⟨rfl, by simp⟩
  | forced => exact Or.inr ⟨rfl, by simp⟩

/-- Claim C4: stopping a handle whose supervised process already exited
voluntarily takes the graceful path.  On POSIX such a child — exited but
not yet waited on — keeps its process-group id, `os.killpg` succeeds with
the signal discarded, and `wait` returns the exit status immediately, so
the teardown world presents no exception from either call (the
hypotheses); the teardown then records the graceful disposition, never
calls `kill`, and, being total, raises nothing. -/
theorem claim4_stop_graceful_when_exited (w : StopWorld)
    (h1 : w.sigExc = none) (h2 : w.waitExc = none) :
    stopServer w = ⟨.graceful, false⟩ := by
  simp [stopServer, h1, h2]

/-- Witness for claim C4 at the exception-free teardown world. -/
theorem claim4_witness :
    (⟨none, none⟩ : StopWorld).sigExc = none ∧
    (⟨none, none⟩ : StopWorld).waitExc = none ∧
    stopServer ⟨none, none⟩ = ⟨.graceful, false⟩ :=
  ⟨rfl, rfl, claim4_stop_graceful_when_exited ⟨none, none⟩ rfl rfl⟩

/-- Claim C5 as stated is false at two concrete byte lines: a non-UTF-8
line (`0xFF`) is not skipped — it aborts the stream with an exception and
the following content line is never counted — and a line whose raw bytes
start with a space rather than `data: ` does yield a token event after
stripping. -/
theorem claim5_counterexample :
    runLines 1 [⟨[0xFF], 2⟩, contentLine "Hi" 3] ⟨none, none, 0⟩ =
      (⟨none, none, 0⟩, .aborted (.other "invalid utf-8 byte")) ∧
    classifyLine (asciiBytes
      "  data: \x7b\"choices\": [\x7b\"delta\": \x7b\"content\": \"x\"\x7d\x7d]\x7d") =
      .token :=
  ⟨by decide, by decide⟩

/-- Claim C5 amended: a raw byte line that decodes as UTF-8 and whose
decoded, stripped text does not start with `data: ` (in particular any
empty line) yields no event — the loop state is unchanged and the
remaining lines are processed. -/
theorem claim5_non_data_lines_skipped (start : ℚ) (l : StreamLine)
    (rest : List StreamLine) (st : LoopSt) (cs : List Char)
    (hdec : utf8Decode l.bytes = some cs)
    (hpre : ¬ ("data: ".toList.isPrefixOf (pyStrip cs) = true)) :
    runLines start (l :: rest) st = runLines start rest st :=
  runLines_cons_skip start l rest st (classifyLine_no_data_skip l.bytes cs hdec hpre)

/-- Witness for claim C5 at the prefix-free line `ping`. -/
theorem claim5_witness :
    utf8Decode (asciiBytes "ping") = some "ping".toList ∧
    ¬ ("data: ".toList.isPrefixOf (pyStrip "ping".toList) = true) ∧
    runLines 1 [⟨asciiBytes "ping", 2⟩] ⟨none, none, 0⟩ =
      runLines 1 [] ⟨none, none, 0⟩ :=
  ⟨by decide, by decide,
    claim5_non_data_lines_skipped 1 ⟨asciiBytes "ping", 2⟩ [] ⟨none, none, 0⟩
      "ping".toList (by decide) (by decide)⟩

/-- Claim C6 as stated is false: a response with the 200-class status 204
inside the timeout window is not accepted — polling continues and, with no
exact 200 arriving in the window, the poller returns false; the same
attempt sequence with 200 in place of 204 returns true at once. -/
theorem claim6_counterexample :
    wait_for_exo 0 60 [⟨1, some 204⟩, ⟨100, some 200⟩] = false ∧
    wait_for_exo 0 60 [⟨1, some 200⟩, ⟨100, some 200⟩] = true := by
  constructor
  · norm_num [wait_for_exo]
  · norm_num [wait_for_exo]

/-- Claim C6 amended: within the timeout window the poller returns true
immediately exactly on a response with status equal to 200; every other
status and every raised request failure is treated as not-yet-ready and the
poller moves on to the next attempt. -/
theorem claim6_only_200_ready (start_time timeout : ℚ) (a : Attempt)
    (rest : List Attempt) (h : a.clock - start_time < timeout) :
    (a.outcome = some 200 → wait_for_exo start_time timeout (a :: rest) = true) ∧
    (a.outcome ≠ some 200 →
      wait_for_exo start_time timeout (a :: rest) =
        wait_for_exo start_time timeout rest) := by
  constructor
  · intro h200
    rw [wait_for_exo, if_pos h, h200]
    simp
  · intro hne
    rw [wait_for_exo, if_pos h]
    cases ho : a.outcome with
    | none => rfl
    | some s =>
      rw [ho] at hne
      have hs : s ≠ 200 := fun he => hne (by rw [he])
      simp [hs]

/-- Witness for claim C6 at a 503 attempt within the window. -/
theorem claim6_witness :
    ((⟨1, some 503⟩ : Attempt).clock - 0 < 60) ∧
    ((⟨1, some 503⟩ : Attempt).outcome ≠ some 200 →
      wait_for_exo 0 60 [⟨1, some 503⟩, ⟨3, some 200⟩] =
        wait_for_exo 0 60 [⟨3, some 200⟩]) :=
  ⟨by norm_num, (claim6_only_200_ready 0 60 ⟨1, some 503⟩ [⟨3, some 200⟩] (by norm_num)).2⟩

/-- Claim C7 as stated is false: a transport failure arriving after the
first content chunk yields a record in which `time_to_first_token` is
populated alongside `error`, not a record with only the error field. -/
theorem claim7_counterexample :
    (measure_performance c7inp).error = some "Client error: Connection reset" ∧
    (measure_performance c7inp).time_to_first_token = some 2 := by
  have hc : classifyLine (contentLine "Hi" 3).bytes = .token := by decide
  constructor
  · norm_num [measure_performance, tryBody, runLines, c7inp, hc, excMsg]
    decide
  · norm_num [measure_performance, tryBody, runLines, c7inp, hc,
      show (contentLine "Hi" 3).time = 3 from rfl]

/-- Claim C7 amended: every caught failure — transport-level or unexpected,
at the request or mid-stream — yields a record whose `error` is the
category-tagged message and whose throughput fields are all empty
(`time_to_first_token` may additionally be present when a content chunk
arrived before the failure); `measure_performance` is total, so no
exception propagates to its caller. -/
theorem claim7_failures_caught_tagged (inp : MeasureInput) (e : PyExc)
    (h : (tryBody inp).2.2 = some e) :
    (measure_performance inp).error = some (excMsg e) ∧
    (measure_performance inp).tokens_per_second = none ∧
    (measure_performance inp).total_tokens = none ∧
    (measure_performance inp).total_time = none := by
  rcases inp with ⟨resp, st, et⟩
  cases resp with
  | raised e2 =>
    simp only [tryBody] at h
    simp only [measure_performance, tryBody]
    simp at h
    subst h
    simp
  | resp status reason body =>
    by_cases hs : status = 200
    · subst hs
      simp only [tryBody, if_neg (by simp : ¬ (200 ≠ 200))] at h
      simp only [measure_performance, tryBody, if_neg (by simp : ¬ (200 ≠ 200))]
      rcases hr : runLines st body.lines ⟨none, none, 0⟩ with ⟨stF, exit⟩
      rw [hr] at h
      cases exit with
      | aborted e2 =>
        simp at h
        subst h
        simp
      | doneBreak =>
        by_cases ht : 0 < stF.tokens
        · by_cases hz : et - st = 0
          · simp [finishStream, ht, hz] at h ⊢
            subst h
            simp
          · simp [finishStream, ht, hz] at h
        · simp [finishStream, ht] at h
      | exhausted =>
        cases hie : body.iterExc with
        | some e2 =>
          simp [hie] at h
          subst h
          simp
        | none =>
          simp only [hie] at h ⊢
          by_cases ht : 0 < stF.tokens
          · by_cases hz : et - st = 0
            · simp [finishStream, ht, hz] at h ⊢
              subst h
              simp
            · simp [finishStream, ht, hz] at h
          · simp [finishStream, ht] at h
    · simp [tryBody, hs] at h

/-- Witness for claim C7 at a mid-stream client error. -/
theorem claim7_witness :
    (tryBody c7inp).2.2 = some (.clientError "Connection reset") ∧
    ((measure_performance c7inp).error =
        some (excMsg (.clientError "Connection reset")) ∧
      (measure_performance c7inp).tokens_per_second = none ∧
      (measure_performance c7inp).total_tokens = none ∧
      (measure_performance c7inp).total_time = none) := by
  have h : (tryBody c7inp).2.2 = some (.clientError "Connection reset") := by decide
  exact ⟨h, claim7_failures_caught_tagged c7inp (.clientError "Connection reset") h⟩

/-- Claim C8 as stated is false at a concrete chunk: `{"choices": []}` is
a successfully parsed record with no choice 0 — the text delta is absent —
yet instead of yielding no event the iteration raises `IndexError`,
aborting the stream before the following content line. -/
theorem claim8_counterexample :
    json_loads "\x7b\"choices\": []\x7d" = some (.obj [(pyCodes "choices", .arr [])]) ∧
    runLines 1 [⟨asciiBytes "data: \x7b\"choices\": []\x7d", 2⟩, contentLine "Hi" 3]
        ⟨none, none, 0⟩ =
      (⟨none, none, 0⟩, .aborted (.other "list index out of range")) :=
  ⟨rfl, by decide⟩

/-- Claim C8 amended: when a successfully parsed chunk's shape conforms to
the fixed path (an object whose first choice, if the `choices` key is
present, is an object, with `delta` absent or an object) and the content
value is absent or Python-falsy (in particular the empty string), no event
is yielded: the loop state is unchanged and the next lines are processed.
(A successfully parsed but nonconforming-shaped record, e.g. an empty
`choices` array, instead aborts; see the counterexample.) -/
theorem claim8_falsy_content_skipped (start : ℚ) (l : StreamLine)
    (rest : List StreamLine) (st : LoopSt) (cs : List Char)
    (chunk : Json) (c : Option Json)
    (hdec : utf8Decode l.bytes = some cs)
    (hpre : "data: ".toList.isPrefixOf (pyStrip cs) = true)
    (hdone : (pyStrip cs).drop 6 ≠ "[DONE]".toList)
    (hjson : json_loads (String.mk ((pyStrip cs).drop 6)) = some chunk)
    (hex : extractContent chunk = .ok c)
    (hfalsy : pyTruthyOpt c = false) :
    runLines start (l :: rest) st = runLines start rest st :=
  runLines_cons_skip start l rest st
    (classifyLine_falsy_content_skip l.bytes cs chunk c hdec hpre hdone hjson hex hfalsy)

/-- Witness for claim C8 at an empty-content chunk. -/
theorem claim8_witness :
    utf8Decode (asciiBytes emptyContentStr) = some emptyContentStr.toList ∧
    "data: ".toList.isPrefixOf (pyStrip emptyContentStr.toList) = true ∧
    (pyStrip emptyContentStr.toList).drop 6 ≠ "[DONE]".toList ∧
    json_loads (String.mk ((pyStrip emptyContentStr.toList).drop 6)) =
      some emptyContentChunk ∧
    extractContent emptyContentChunk = .ok (some (.str [])) ∧
    pyTruthyOpt (some (.str [])) = false ∧
    runLines 1 [⟨asciiBytes emptyContentStr, 2⟩] ⟨none, none, 0⟩ =
      runLines 1 [] ⟨none, none, 0⟩ :=
  ⟨by decide, by decide, by decide, rfl, rfl, rfl,
    claim8_falsy_content_skipped 1 ⟨asciiBytes emptyContentStr, 2⟩ [] ⟨none, none, 0⟩
      emptyContentStr.toList emptyContentChunk (some (.str []))
      (by decide) (by decide) (by decide) rfl rfl rfl⟩

/-- Claim C9: a run that observed at least one content chunk records
`time_to_first_token` computed from the first such chunk; being taken from
the first token line it is never overwritten by later chunks, and no
hypothesis excludes a mid-stream failure, so it survives one. -/
theorem claim9_ttft_from_first_chunk (inp : MeasureInput)
    (h : 1 ≤ runTokens inp) :
    ∃ reason body l, inp.response = .resp 200 reason body ∧
      firstTokenLine body.lines = some l ∧
      (measure_performance inp).time_to_first_token =
        some (l.time - inp.startTime) := by
  rcases hinp : inp.response with he | ⟨status, reason, body⟩
  · rw [runTokens] at h
    rcases inp with ⟨resp, st, et⟩
    cases hinp
    simp [tryBody] at h
  · rcases inp with ⟨resp, st, et⟩
    cases hinp
    by_cases hs : status = 200
    · subst hs
      have htok : runTokens ⟨.resp 200 reason body, st, et⟩ =
          (runLines st body.lines ⟨none, none, 0⟩).1.tokens := by
        simp only [runTokens, tryBody, if_neg (by simp : ¬ (200 ≠ 200))]
        rcases hr : runLines st body.lines ⟨none, none, 0⟩ with ⟨stF, exit⟩
        cases exit with
        | aborted e => simp
        | doneBreak =>
          by_cases ht : 0 < stF.tokens
          · by_cases hz : et - st = 0
            · simp [finishStream, ht, hz]
            · simp [finishStream, ht, hz]
          · simp [finishStream, ht]
        | exhausted =>
          cases body.iterExc with
          | some e => simp
          | none =>
            by_cases ht : 0 < stF.tokens
            · by_cases hz : et - st = 0
              · simp [finishStream, ht, hz]
              · simp [finishStream, ht, hz]
            · simp [finishStream, ht]
      rw [htok] at h
      obtain ⟨l, hl, httft⟩ :=
        runLines_first_token st body.lines ⟨none, none, 0⟩ rfl rfl h
      exact ⟨reason, body, l, rfl, hl,
        (measure_ttft_eq ⟨.resp 200 reason body, st, et⟩ reason body rfl).trans httft⟩
    · rw [runTokens] at h
      simp [tryBody, hs] at h

/-- Witness for claim C9 at a two-chunk run cut short by a transport
failure. -/
theorem claim9_witness :
    1 ≤ runTokens w9 ∧
    (∃ reason body l, w9.response = .resp 200 reason body ∧
      firstTokenLine body.lines = some l ∧
      (measure_performance w9).time_to_first_token =
        some (l.time - w9.startTime)) := by
  have h : 1 ≤ runTokens w9 := by decide
  exact ⟨h, claim9_ttft_from_first_chunk w9 h⟩

/-- Claim C10: every record that contains the throughput fields satisfies
`tokens_per_second = total_tokens / total_time` with `total_time` the end
minus the start timestamp of that run, and `total_tokens ≥ 1`. -/
theorem claim10_throughput_equation (inp : MeasureInput) (n : Nat) (tt tps : ℚ)
    (h1 : (measure_performance inp).total_tokens = some n)
    (h2 : (measure_performance inp).total_time = some tt)
    (h3 : (measure_performance inp).tokens_per_second = some tps) :
    tps = (n : ℚ) / tt ∧ 1 ≤ n ∧ tt = inp.endTime - inp.startTime := by
  rcases inp with ⟨resp, st, et⟩
  cases resp with
  | raised e => simp [measure_performance, tryBody] at h1
  | resp status reason body =>
    by_cases hs : status = 200
    · subst hs
      simp only [measure_performance, tryBody, if_neg (by simp : ¬ (200 ≠ 200))] at h1 h2 h3 ⊢
      rcases hr : runLines st body.lines ⟨none, none, 0⟩ with ⟨stF, exit⟩
      rw [hr] at h1 h2 h3
      cases exit with
      | aborted e => simp at h1
      | doneBreak =>
        by_cases ht : 0 < stF.tokens
        · by_cases hz : et - st = 0
          · simp [finishStream, ht, hz] at h1
          · simp [finishStream, ht, hz] at h1 h2 h3
            subst h1; subst h2; subst h3
            exact ⟨rfl, ht, rfl⟩
        · simp [finishStream, ht] at h1
      | exhausted =>
        cases hie : body.iterExc with
        | some e => simp [hie] at h1
        | none =>
          simp only [hie] at h1 h2 h3
          by_cases ht : 0 < stF.tokens
          · by_cases hz : et - st = 0
            · simp [finishStream, ht, hz] at h1
            · simp [finishStream, ht, hz] at h1 h2 h3
              subst h1; subst h2; subst h3
              exact ⟨rfl, ht, rfl⟩
          · simp [finishStream, ht] at h1
    · simp [measure_performance, tryBody, hs] at h1

/-- Witness for claim C10 at a one-chunk run between timestamps 1 and 9. -/
theorem claim10_witness :
    (measure_performance w10).total_tokens = some 1 ∧
    (measure_performance w10).total_time = some 8 ∧
    (measure_performance w10).tokens_per_second = some (1 / 8) ∧
    ((1 / 8 : ℚ) = (1 : ℚ) / 8 ∧ 1 ≤ 1 ∧ (8 : ℚ) = w10.endTime - w10.startTime) := by
  have hc : classifyLine (contentLine "Hi" 3).bytes = .token := by decide
  have hd : classifyLine (doneLine 4).bytes = .done := by decide
  have h1 : (measure_performance w10).total_tokens = some 1 := by
    norm_num [measure_performance, tryBody, runLines, finishStream, w10, hc, hd]
  have h2 : (measure_performance w10).total_time = some 8 := by
    norm_num [measure_performance, tryBody, runLines, finishStream, w10, hc, hd]
  have h3 : (measure_performance w10).tokens_per_second = some (1 / 8) := by
    norm_num [measure_performance, tryBody, runLines, finishStream, w10, hc, hd]
  exact ⟨h1, h2, h3, claim10_throughput_equation w10 1 8 (1 / 8) h1 h2 h3⟩
